import Mathlib

/-
Verification of the sync/reconciliation layer of the central-da-performance
repository (vetor-core-backend): the scheduled sync jobs, the manual sync
route POST /api/sync, the stage-to-status mapping, the note ingestion and
the sync-log lifecycle.

Modelling conventions:
- database tables are lists of rows; local row ids are naturals;
- crypto.randomUUID() / gen_random_uuid() are modelled by a fresh-id supply
  (the field nextId of the state); the fact that a random UUID does not
  collide with a stored row is the hypothesis DB.WF;
- nullable columns and possibly-undefined JavaScript fields are Option;
- JavaScript truthiness of strings (undefined and the empty string are
  falsy) is made explicit by jsOrS / jsTruthyS;
- drizzle-orm omits undefined values from insert values and update set
  clauses, so an absent external field leaves the stored value unchanged
  on update (optSet below) and yields NULL on insert;
- timestamps are abstracted to presence: started_at is always set on
  insert, completed_at is a Boolean flag;
- external HTTP fetches are oracles passed in as Except values (a .error
  models a rejected promise); per-record reconciliation failures that the
  source catches per iteration are modelled by the malformed flag on the
  external deal record;
- the field syncOps is a ghost trace of the writes made to the sync_logs
  table, recording (row id, status written) in order, newest first.
-/

/-- JavaScript string truthiness for a possibly-undefined string:
undefined and the empty string are falsy. -/
def jsTruthyS (o : Option String) : Bool :=
  match o with
  | some s => s != ""
  | none => false

/-- JavaScript `a || b` where `a` is a possibly-undefined string. -/
def jsOrS (a : Option String) (b : String) : String :=
  match a with
  | some s => if s == "" then b else s
  | none => b

/-- JavaScript template interpolation of a possibly-undefined value:
undefined prints as the string undefined. -/
def jsStr (o : Option String) : String :=
  match o with
  | some s => s
  | none => "undefined"

/-- Drizzle update set clause for a possibly-undefined value: undefined is
omitted from the clause, so the stored value is kept. -/
def optSet (v old : Option String) : Option String :=
  match v with
  | some s => some s
  | none => old

def charsStartWith : List Char → List Char → Bool
  | _, [] => true
  | [], _ :: _ => false
  | c :: cs, d :: ds => c == d && charsStartWith cs ds

def charsContain : List Char → List Char → Bool
  | [], sub => charsStartWith [] sub
  | _c :: cs, sub => charsStartWith (_c :: cs) sub || charsContain cs sub

/-- JavaScript `s.includes(sub)`: `sub` occurs as a contiguous substring of
`s`. Note that this is case-sensitive. -/
def jsIncludes (s sub : String) : Bool :=
  charsContain s.toList sub.toList

/-- Lower-casing of a string, used only to state the specification side of
the case-insensitivity question. -/
def strLower (s : String) : String :=
  String.mk (s.toList.map Char.toLower)

/-- Function mapVetorStage of src/vetor-core-backend/src/routes/sync.ts
(lines 353-361; an identical copy sits in the scheduled-jobs module):
maps the CRM free-text stage to a local deal status. -/
def mapVetorStage (stage : String) : String :=
  if stage == "" then "New"
  else if jsIncludes stage "perdido" then "Lost"
  else if jsIncludes stage "fechado" then "Closed"
  else if jsIncludes stage "proposta" || jsIncludes stage "negociacao" then "Proposal"
  else if jsIncludes stage "visita" then "Negotiation"
  else if jsIncludes stage "qualificacao" then "Qualified"
  else "New"

/-- The stage mapping exactly as the specification words it: the same
keywords and priority order, but matched case-insensitively. -/
def mapStageSpecCI (stage : String) : String :=
  if stage == "" then "New"
  else if jsIncludes (strLower stage) "perdido" then "Lost"
  else if jsIncludes (strLower stage) "fechado" then "Closed"
  else if jsIncludes (strLower stage) "proposta" || jsIncludes (strLower stage) "negociacao" then "Proposal"
  else if jsIncludes (strLower stage) "visita" then "Negotiation"
  else if jsIncludes (strLower stage) "qualificacao" then "Qualified"
  else "New"

/-- Keyword table of the stage mapping in priority order. -/
def stageKeywordTable : List (String × String) :=
  [("perdido", "Lost"), ("fechado", "Closed"),
   ("proposta", "Proposal"), ("negociacao", "Proposal"),
   ("visita", "Negotiation"), ("qualificacao", "Qualified")]

/-- The amended specification of the stage mapping: first keyword of the
priority table that occurs (case-sensitively) in the stage decides the
status; empty or unrecognized stages map to New. -/
def mapStageOrdered (stage : String) : String :=
  if stage == "" then "New"
  else
    match stageKeywordTable.find? (fun kv => jsIncludes stage kv.1) with
    | some kv => kv.2
    | none => "New"

/-- The six local deal statuses. -/
def dealStatuses : List String :=
  ["New", "Qualified", "Negotiation", "Proposal", "Closed", "Lost"]

/-- Enum crm_type of the organizations table. -/
inductive CrmType where
  | vetor
  | mada
  | none
deriving DecidableEq

/-- Column crm_config of the organizations table (jsonb credential blob). -/
structure CrmConfig where
  vetor_api_key : Option String := Option.none
  vetor_company_id : Option String := Option.none
  mada_supabase_url : Option String := Option.none
  mada_supabase_key : Option String := Option.none
deriving DecidableEq

/-- Row of the organizations table (fields the sync layer reads). -/
structure Organization where
  id : Nat
  company_id : Option String := Option.none
  crm_type : CrmType := CrmType.none
  crm_config : Option CrmConfig := Option.none
deriving DecidableEq

/-- Row of the brokers table. -/
structure Broker where
  id : Nat
  organization_id : Nat
  name : Option String := Option.none
  first_name : String := ""
  last_name : String := ""
  email : Option String := Option.none
  phone : Option String := Option.none
  crm_external_id : Option String := Option.none
  is_active : Bool := true
deriving DecidableEq

/-- Row of the deals table (fields the sync layer touches; columns not
referenced by any verified property are omitted). -/
structure Deal where
  id : Nat
  organization_id : Nat
  external_id : Option String := Option.none
  broker_id : Option Nat := Option.none
  client_name : String := ""
  client_email : Option String := Option.none
  client_phone : Option String := Option.none
  property_title : Option String := Option.none
  status : String := "New"
  sentiment : String := "Neutral"
  smart_summary : Option String := Option.none
deriving DecidableEq

/-- Row of the activity_logs table; crm_note_id is the projection of the
metadata jsonb used for deduplication. The column deal_id carries a NOT
NULL foreign key to deals.id. -/
structure ActivityLog where
  id : Nat
  deal_id : Nat
  type : String
  description : String
  crm_note_id : Option String := Option.none
deriving DecidableEq

/-- Row of the sync_logs table. started_at is always set on insert and is
abstracted away; completed_at is abstracted to a presence flag. -/
structure SyncLog where
  id : Nat
  organization_id : Nat
  source : String
  status : String
  records_processed : Nat := 0
  error_message : Option String := Option.none
  completed_at : Bool := false
deriving DecidableEq

/-- The relational store plus the fresh-id supply and the ghost trace of
sync_logs writes. -/
structure DB where
  organizations : List Organization := []
  brokers : List Broker := []
  deals : List Deal := []
  activity_logs : List ActivityLog := []
  sync_logs : List SyncLog := []
  nextId : Nat := 0
  syncOps : List (Nat × String) := []
deriving DecidableEq

/-- Freshness of the id supply: every stored row id is below nextId, so a
freshly drawn id (a new random UUID) collides with no stored row. -/
def DB.WF (db : DB) : Prop :=
  (∀ b ∈ db.brokers, b.id < db.nextId) ∧
  (∀ d ∈ db.deals, d.id < db.nextId) ∧
  (∀ a ∈ db.activity_logs, a.id < db.nextId) ∧
  (∀ s ∈ db.sync_logs, s.id < db.nextId)

instance (db : DB) : Decidable db.WF := by
  unfold DB.WF; infer_instance

/-- Draw one fresh id (one call of crypto.randomUUID or one column default
gen_random_uuid). -/
def DB.fresh (db : DB) : Nat × DB :=
  (db.nextId, { db with nextId := db.nextId + 1 })

/-- Insert one row into sync_logs, recording the write on the ghost trace. -/
def insertSyncLog (db : DB) (row : SyncLog) : DB :=
  { db with sync_logs := row :: db.sync_logs,
            syncOps := (row.id, row.status) :: db.syncOps }

/-- The freshly opened sync log row: status running, records_processed 0,
started_at now (abstracted), completed_at unset. -/
def openRow (logId orgId : Nat) (src : String) : SyncLog :=
  { id := logId, organization_id := orgId, source := src, status := "running",
    records_processed := 0, error_message := Option.none, completed_at := false }

/-- Set clause of the success-path sync log update shared by the Vetor
scheduled pass, the manual Vetor branch and the manual Mada branch: status
success, records_processed, completed_at; error_message is not written. -/
def setSuccess (n : Nat) (r : SyncLog) : SyncLog :=
  { r with status := "success", records_processed := n, completed_at := true }

def closeSyncLogSuccess (db : DB) (logId n : Nat) : DB :=
  { db with sync_logs := db.sync_logs.map (fun r => if r.id == logId then setSuccess n r else r),
            syncOps := (logId, "success") :: db.syncOps }

/-- Set clause of the success update of the scheduled Mada pass, which also
writes the accumulated per-record errors joined by newlines (or NULL). -/
def setSuccessMada (n : Nat) (errs : List String) (r : SyncLog) : SyncLog :=
  { r with status := "success", records_processed := n, completed_at := true,
           error_message := if errs.isEmpty then Option.none
                            else some (String.intercalate "\n" errs) }

def closeSyncLogSuccessMada (db : DB) (logId n : Nat) (errs : List String) : DB :=
  { db with sync_logs := db.sync_logs.map (fun r => if r.id == logId then setSuccessMada n errs r else r),
            syncOps := (logId, "success") :: db.syncOps }

/-- Set clause of the error-path sync log update: status error,
error_message, completed_at. -/
def setError (msg : String) (r : SyncLog) : SyncLog :=
  { r with status := "error", completed_at := true, error_message := some msg }

def closeSyncLogError (db : DB) (logId : Nat) (msg : String) : DB :=
  { db with sync_logs := db.sync_logs.map (fun r => if r.id == logId then setError msg r else r),
            syncOps := (logId, "error") :: db.syncOps }

/-- Insert into activity_logs. Postgres enforces the NOT NULL foreign key
activity_logs.deal_id referencing deals.id, so the insert throws when the
referenced deal row does not exist. -/
def insertActivityLogChecked (db : DB) (row : ActivityLog) : Except String DB :=
  if db.deals.any (fun d => d.id == row.deal_id) then
    .ok { db with activity_logs := row :: db.activity_logs }
  else
    .error "insert on table activity_logs violates foreign key constraint on deal_id"

/-- Insert into activity_logs with .onConflictDoNothing(): the only
uniqueness on the table is the primary key, so the clause suppresses only
an id collision; a foreign-key violation still throws. -/
def insertActivityLogConflictSkip (db : DB) (row : ActivityLog) : Except String DB :=
  if db.activity_logs.any (fun a => a.id == row.id) then .ok db
  else insertActivityLogChecked db row

/-- External user record returned by the Vetor CRM (broker/agent). -/
structure VetorUser where
  id : Option String := Option.none
  first_name : Option String := Option.none
  last_name : Option String := Option.none
  full_name : Option String := Option.none
  email : Option String := Option.none
  phone : Option String := Option.none
  disabled : Bool := false
  status : String := ""
deriving DecidableEq

/-- External client record returned by the Vetor CRM. -/
structure VetorClient where
  id : String
  first_name : Option String := Option.none
  last_name : Option String := Option.none
  full_name : Option String := Option.none
  email : Option String := Option.none
  phone_primary : Option String := Option.none
deriving DecidableEq

/-- External deal record returned by the Vetor CRM. The flag malformed
abstracts a record whose reconciliation throws inside the per-record try
block (for instance a database write rejected for a bad value); the source
catches such an error per iteration. -/
structure VetorDeal where
  id : Option String := Option.none
  title : Option String := Option.none
  client_id : Option String := Option.none
  agent_email : Option String := Option.none
  stage : String := ""
  notes : Option String := Option.none
  malformed : Bool := false
deriving DecidableEq

/-- External note record returned by the Vetor CRM adapter fetchNotes. -/
structure VetorNote where
  id : String
  deal_id : Option String := Option.none
  title : Option String := Option.none
  content : Option String := Option.none
  is_archived : Bool := false
deriving DecidableEq

/-- Conversation record fetched from the Mada data store. Local deal ids
are naturals, so the deal-linking fields are Option Nat. -/
structure MadaConversation where
  id : String
  deal_id : Option Nat := Option.none
  metadata_deal_id : Option Nat := Option.none
  summary : Option String := Option.none
  sentiment : Option String := Option.none
deriving DecidableEq

/-- One fetch of the Vetor external collections (the scheduled pass uses
fetchRecentlyModified, the manual route Promise.all of fetchUsers,
fetchClients, fetchDeals; one rejection fails the whole fetch). -/
structure VetorFetchData where
  users : List VetorUser := []
  clients : List VetorClient := []
  deals : List VetorDeal := []
deriving DecidableEq

/-- Deal lookup of syncVetorNotes (scheduled module lines 115-121): find
the local deal whose external_id equals the note deal_id; the query is not
organization-scoped. -/
def vetorNoteDealLookup (db : DB) (note : VetorNote) : Option Nat :=
  if jsTruthyS note.deal_id then
    (db.deals.find? (fun d => d.external_id == some (note.deal_id.getD ""))).map (fun d => d.id)
  else Option.none

/-- One note of syncVetorNotes (scheduled module lines 108-148): skip
archived notes, resolve the deal by external id, then insert one
activity_logs row of type note with onConflictDoNothing; a note without a
resolvable deal gets a freshly generated random UUID as deal_id. A thrown
insert is caught per note and the loop continues. -/
def syncOneVetorNote (db : DB) (note : VetorNote) : DB :=
  if note.is_archived then db
  else
    let dealId := vetorNoteDealLookup db note
    let rowId := (DB.fresh db).1
    let db1 := (DB.fresh db).2
    let fkPair : Nat × DB :=
      match dealId with
      | some d => (d, db1)
      | Option.none => DB.fresh db1
    let row : ActivityLog :=
      { id := rowId, deal_id := fkPair.1, type := "note",
        description := jsOrS note.content (jsOrS note.title ""),
        crm_note_id := some note.id }
    match insertActivityLogConflictSkip fkPair.2 row with
    | .ok db2 => db2
    | .error _ => fkPair.2

/-- Body of syncVetorNotes: a failed fetch is swallowed by the outer catch
(the function never throws); otherwise every note is processed in order. -/
def syncVetorNotesModel (db : DB) (fetched : Except String (List VetorNote)) : DB :=
  match fetched with
  | .error _ => db
  | .ok notes => notes.foldl syncOneVetorNote db

/-- Broker lookup of the scheduled user sync (scheduled module lines
217-219): by external id only, not organization-scoped. -/
def cronFindBroker (db : DB) (u : VetorUser) : Option Broker :=
  db.brokers.find? (fun b => b.crm_external_id == some (jsOrS u.id ""))

/-- One user of the scheduled user sync (scheduled module lines 215-250):
update the matched broker in place (whatever organization owns it), or
insert a new broker under the syncing organization. -/
def cronSyncOneUser (db : DB) (orgId : Nat) (u : VetorUser) : DB :=
  match cronFindBroker db u with
  | some existing =>
      { db with brokers := db.brokers.map (fun b =>
          if b.id == existing.id then
            { b with first_name := jsOrS u.first_name "",
                     last_name := jsOrS u.last_name "",
                     email := optSet u.email b.email,
                     phone := optSet u.phone b.phone,
                     is_active := !u.disabled && u.status == "active" }
          else b) }
  | Option.none =>
      let bid := (DB.fresh db).1
      let db1 := (DB.fresh db).2
      { db1 with brokers :=
          { id := bid, organization_id := orgId, crm_external_id := u.id,
            first_name := jsOrS u.first_name "", last_name := jsOrS u.last_name "",
            email := u.email, phone := u.phone,
            is_active := !u.disabled && u.status == "active",
            name := Option.none } :: db1.brokers }

/-- The scheduled user loop with its processed counter. -/
def cronSyncUsers (orgId : Nat) : DB → List VetorUser → Nat → DB × Nat
  | db, [], n => (db, n)
  | db, u :: us, n => cronSyncUsers orgId (cronSyncOneUser db orgId u) us (n + 1)

/-- Deal lookup of the scheduled deal sync (scheduled module lines
259-261): by property title only, not organization-scoped. -/
def cronFindDeal (db : DB) (rec : VetorDeal) : Option Deal :=
  db.deals.find? (fun d => d.property_title == some (jsOrS rec.title ""))

/-- Broker lookup of the scheduled deal sync (lines 255-257): by email
only, not organization-scoped. -/
def cronFindBrokerByEmail (db : DB) (rec : VetorDeal) : Option Broker :=
  db.brokers.find? (fun b => b.email == some (jsOrS rec.agent_email ""))

/-- One deal of the scheduled deal sync (scheduled module lines 253-308).
The update set clause contains organization_id, so updating a deal matched
across tenants reassigns it to the syncing organization. -/
def cronSyncOneDeal (db : DB) (orgId : Nat) (rec : VetorDeal) : Except String DB :=
  if rec.malformed then .error ("Error syncing deal " ++ jsOrS rec.id "")
  else
    let broker := cronFindBrokerByEmail db rec
    match cronFindDeal db rec with
    | some d0 =>
        .ok { db with deals := db.deals.map (fun d =>
          if d.id == d0.id then
            { d with organization_id := orgId,
                     broker_id := (match broker with
                                   | some b => some b.id
                                   | Option.none => d.broker_id),
                     client_name := jsOrS rec.title "Sem nome",
                     property_title := optSet rec.title d.property_title,
                     external_id := optSet rec.id d.external_id,
                     status := mapVetorStage rec.stage }
          else d) }
    | Option.none =>
        let nid := (DB.fresh db).1
        let db1 := (DB.fresh db).2
        .ok { db1 with deals :=
          { id := nid, organization_id := orgId,
            broker_id := (match broker with
                          | some b => some b.id
                          | Option.none => Option.none),
            client_name := jsOrS rec.title "Sem nome",
            property_title := rec.title,
            external_id := rec.id,
            status := mapVetorStage rec.stage } :: db1.deals }

/-- The scheduled deal loop: a per-record error is written to the console
only and the loop continues with the next record. -/
def cronSyncDeals (orgId : Nat) : DB → List VetorDeal → Nat → DB × Nat
  | db, [], n => (db, n)
  | db, rec :: recs, n =>
    match cronSyncOneDeal db orgId rec with
    | .ok db1 => cronSyncDeals orgId db1 recs (n + 1)
    | .error _ => cronSyncDeals orgId db recs n

/-- Credential probe org.crm_config?.vetor_api_key (truthiness). -/
def hasVetorKey (org : Organization) : Bool :=
  jsTruthyS (org.crm_config.bind (fun c => c.vetor_api_key))

/-- Credential probe for the Mada branch: both the Supabase URL and key. -/
def hasMadaCreds (org : Organization) : Bool :=
  jsTruthyS (org.crm_config.bind (fun c => c.mada_supabase_url)) &&
    jsTruthyS (org.crm_config.bind (fun c => c.mada_supabase_key))

/-- Body of one scheduled Vetor pass after the sync log is opened: sync
users then deals then notes, in the order the source fixes, returning the
store and the processed count. -/
def vetorCronBody (db2 : DB) (orgId : Nat) (data : VetorFetchData)
    (nf : Except String (List VetorNote)) : DB × Nat :=
  let s1 := cronSyncUsers orgId db2 data.users 0
  let s2 := cronSyncDeals orgId s1.1 data.deals s1.2
  (syncVetorNotesModel s2.1 nf, s2.2)

/-- One scheduled Vetor pass for one organization (scheduled module lines
182-335): skip when the API key is missing; otherwise open a sync log,
fetch, run the body and close the log with success or error. -/
def vetorCronPassOrg (db : DB) (org : Organization)
    (vf : Except String VetorFetchData)
    (nf : Except String (List VetorNote)) : DB :=
  if !(hasVetorKey org) then db
  else
    let logId := (DB.fresh db).1
    let db1 := (DB.fresh db).2
    let db2 := insertSyncLog db1 (openRow logId org.id "vetor_imobi")
    match vf with
    | .error e => closeSyncLogError db2 logId e
    | .ok data =>
        let s := vetorCronBody db2 org.id data nf
        closeSyncLogSuccess s.1 logId s.2

/-- Mada deal-link resolution (mada-sync.ts lines 124-125):
conversation.deal_id or conversation.metadata?.deal_id. -/
def madaDealLink (c : MadaConversation) : Option Nat :=
  match c.deal_id with
  | some d => some d
  | Option.none => c.metadata_deal_id

/-- JavaScript `a || b` for two possibly-undefined strings. -/
def jsOrO (a b : Option String) : Option String :=
  if jsTruthyS a then a else b

/-- One conversation of MadaSyncService.syncToVetorCore (mada-sync.ts
lines 120-172): resolve the linked deal (by raw deal id, not
organization-scoped), update its summary and sentiment, and append one
ConversationSummary activity log; missing links are pushed onto the error
list and skipped. -/
def madaSyncStep (st : DB × Nat × List String) (c : MadaConversation) :
    DB × Nat × List String :=
  match madaDealLink c with
  | Option.none =>
      (st.1, st.2.1, st.2.2 ++ ["Conversation " ++ c.id ++ " has no associated deal_id"])
  | some dealId =>
      match st.1.deals.find? (fun d => d.id == dealId) with
      | Option.none =>
          (st.1, st.2.1,
           st.2.2 ++ ["Deal " ++ toString dealId ++ " not found for conversation " ++ c.id])
      | some d0 =>
          let db1 := { st.1 with deals := st.1.deals.map (fun d =>
            if d.id == dealId then
              { d with smart_summary := jsOrO c.summary d0.smart_summary,
                       sentiment := jsOrS c.sentiment d0.sentiment }
            else d) }
          let aid := (DB.fresh db1).1
          let db2 := (DB.fresh db1).2
          match insertActivityLogChecked db2
              { id := aid, deal_id := dealId, type := "ConversationSummary",
                description := jsOrS c.summary "AI conversation summary",
                crm_note_id := Option.none } with
          | .ok db3 => (db3, st.2.1 + 1, st.2.2)
          | .error e =>
              (db2, st.2.1,
               st.2.2 ++ ["Failed to sync conversation " ++ c.id ++ ": " ++ e])

/-- MadaSyncService.syncToVetorCore over a conversation batch, returning
the updated store, the processed count and the error list. -/
def syncToVetorCore (db : DB) (convs : List MadaConversation) :
    DB × Nat × List String :=
  convs.foldl madaSyncStep (db, 0, [])

/-- Broker lookup of the manual deal sync (sync.ts lines 148-154): by
agent email, scoped to the requesting organization. -/
def routeFindBroker (db : DB) (orgId : Nat) (rec : VetorDeal) : Option Broker :=
  db.brokers.find? (fun b =>
    b.email == some (jsOrS rec.agent_email "") && b.organization_id == orgId)

/-- Deal lookup the manual route actually performs (sync.ts lines
167-173): by property title within the requesting organization; the
external id is not consulted. -/
def routeFindDeal (db : DB) (orgId : Nat) (rec : VetorDeal) : Option Deal :=
  db.deals.find? (fun d =>
    d.property_title == some (jsOrS rec.title "") && d.organization_id == orgId)

/-- Matching rule exactly as the specification states it: primary match by
external id scoped to the organization; only a record lacking an external
id falls back to a property-title match within the same organization. -/
def specFindDeal (db : DB) (orgId : Nat) (rec : VetorDeal) : Option Deal :=
  if jsTruthyS rec.id then
    db.deals.find? (fun d =>
      d.organization_id == orgId && d.external_id == some (rec.id.getD ""))
  else
    db.deals.find? (fun d =>
      d.organization_id == orgId && d.property_title == some (jsOrS rec.title ""))

/-- Amended matching rule for the manual route, following the corrected
claim: selection is solely by property title within the requesting
organization. -/
def amendedFindDealRoute (db : DB) (orgId : Nat) (rec : VetorDeal) : Option Deal :=
  db.deals.find? (fun d =>
    d.organization_id == orgId && d.property_title == some (jsOrS rec.title ""))

/-- Amended matching rule for the scheduled job: selection is solely by
property title, with no organization scoping at all. -/
def amendedFindDealCron (db : DB) (rec : VetorDeal) : Option Deal :=
  db.deals.find? (fun d => d.property_title == some (jsOrS rec.title ""))

/-- Legacy composite broker name (sync.ts lines 115 and 128):
user.full_name or the trimmed template of first and last name. -/
def routeBrokerName (u : VetorUser) : String :=
  jsOrS u.full_name (String.trim (jsStr u.first_name ++ " " ++ jsStr u.last_name))

/-- One user of the manual user sync (sync.ts lines 102-139): the lookup
by external id is not organization-scoped, but the update is guarded to
rows of the requesting organization; a match owned by another organization
is left untouched (and nothing is inserted). -/
def routeSyncOneUser (db : DB) (orgId : Nat) (u : VetorUser) : DB :=
  match cronFindBroker db u with
  | some existing =>
      if existing.organization_id == orgId then
        { db with brokers := db.brokers.map (fun b =>
            if b.id == existing.id then
              { b with name := some (routeBrokerName u),
                       email := optSet u.email b.email,
                       phone := optSet u.phone b.phone,
                       is_active := !u.disabled && u.status == "active" }
            else b) }
      else db
  | Option.none =>
      let bid := (DB.fresh db).1
      let db1 := (DB.fresh db).2
      { db1 with brokers :=
          { id := bid, organization_id := orgId,
            name := some (routeBrokerName u),
            email := u.email, phone := u.phone,
            crm_external_id := u.id,
            is_active := !u.disabled && u.status == "active" } :: db1.brokers }

/-- The manual user loop with its processed counter. -/
def routeSyncUsers (orgId : Nat) : DB → List VetorUser → Nat → DB × Nat
  | db, [], n => (db, n)
  | db, u :: us, n => routeSyncUsers orgId (routeSyncOneUser db orgId u) us (n + 1)

/-- Client resolution of the manual deal sync (sync.ts lines 156-162). -/
def routeClientName (clients : List VetorClient) (rec : VetorDeal) : String :=
  match clients.find? (fun c => c.id == jsOrS rec.client_id "") with
  | some c => jsOrS c.full_name (String.trim (jsStr c.first_name ++ " " ++ jsStr c.last_name))
  | Option.none => jsOrS rec.title "Sem nome"

def routeClientEmail (clients : List VetorClient) (rec : VetorDeal) : Option String :=
  (clients.find? (fun c => c.id == jsOrS rec.client_id "")).bind (fun c => c.email)

def routeClientPhone (clients : List VetorClient) (rec : VetorDeal) : Option String :=
  (clients.find? (fun c => c.id == jsOrS rec.client_id "")).bind (fun c => c.phone_primary)

/-- Inline note ingestion of the manual deal sync (sync.ts lines 207-218):
when the record carries a notes string, insert one activity log row of
type note for the reconciled deal; there is no conflict clause and no
external note id on the row. -/
def routeNoteStep (db : DB) (dealId : Nat) (rec : VetorDeal) : Except String DB :=
  if jsTruthyS rec.notes then
    let aid := (DB.fresh db).1
    let db1 := (DB.fresh db).2
    insertActivityLogChecked db1
      { id := aid, deal_id := dealId, type := "note",
        description := rec.notes.getD "", crm_note_id := Option.none }
  else .ok db

/-- One deal of the manual deal sync (sync.ts lines 145-224). The insert
branch stores no external_id (the route never writes that column). -/
def routeSyncOneDeal (db : DB) (orgId : Nat) (clients : List VetorClient)
    (rec : VetorDeal) : Except String DB :=
  if rec.malformed then .error ("Error syncing deal " ++ jsOrS rec.id "")
  else
    let broker := routeFindBroker db orgId rec
    match routeFindDeal db orgId rec with
    | some d0 =>
        let db1 := { db with deals := db.deals.map (fun d =>
          if d.id == d0.id then
            { d with organization_id := orgId,
                     broker_id := (match broker with
                                   | some b => some b.id
                                   | Option.none => d.broker_id),
                     client_name := routeClientName clients rec,
                     client_email := routeClientEmail clients rec,
                     client_phone := routeClientPhone clients rec,
                     property_title := optSet rec.title d.property_title,
                     status := mapVetorStage rec.stage }
          else d) }
        routeNoteStep db1 d0.id rec
    | Option.none =>
        let nid := (DB.fresh db).1
        let db1 := (DB.fresh db).2
        let db2 := { db1 with deals :=
          { id := nid, organization_id := orgId,
            broker_id := (match broker with
                          | some b => some b.id
                          | Option.none => Option.none),
            client_name := routeClientName clients rec,
            client_email := routeClientEmail clients rec,
            client_phone := routeClientPhone clients rec,
            property_title := rec.title,
            external_id := Option.none,
            status := mapVetorStage rec.stage } :: db1.deals }
        routeNoteStep db2 nid rec

/-- The manual deal loop: catch (e) is an empty block, so a per-record
error is silently swallowed and the loop continues. -/
def routeSyncDeals (orgId : Nat) (clients : List VetorClient) :
    DB → List VetorDeal → Nat → DB × Nat
  | db, [], n => (db, n)
  | db, rec :: recs, n =>
    match routeSyncOneDeal db orgId clients rec with
    | .ok db1 => routeSyncDeals orgId clients db1 recs (n + 1)
    | .error _ => routeSyncDeals orgId clients db recs n

/-- Outcome of one per-source branch of the manual route. -/
structure PassOut where
  db : DB
  records : Nat
  logId : Nat
deriving DecidableEq

/-- Body of the manual Vetor branch after the sync log is opened: sync
users then deals, returning the store and the processed count. -/
def routeVetorBody (db2 : DB) (orgId : Nat) (data : VetorFetchData) : DB × Nat :=
  let s1 := routeSyncUsers orgId db2 data.users 0
  routeSyncDeals orgId data.clients s1.1 data.deals s1.2

/-- The Vetor branch of POST /api/sync once credentials are known present
(sync.ts lines 66-247): open a sync log, fetch, sync users then deals,
close the log with success, or close it with error when the fetch or the
surrounding block throws; either way control falls through to the final
200 response. -/
def routeVetorPass (db : DB) (org : Organization)
    (vf : Except String VetorFetchData) : PassOut :=
  let logId := (DB.fresh db).1
  let db1 := (DB.fresh db).2
  let db2 := insertSyncLog db1 (openRow logId org.id "vetor_imobi")
  match vf with
  | .error e => { db := closeSyncLogError db2 logId e, records := 0, logId := logId }
  | .ok data =>
      let s := routeVetorBody db2 org.id data
      { db := closeSyncLogSuccess s.1 logId s.2, records := s.2, logId := logId }

/-- The Mada branch of POST /api/sync once credentials are known present
(sync.ts lines 258-301): open a sync log, fetch, run syncToVetorCore and
close with success (the route ignores the per-record error list), or close
with error. -/
def routeMadaPass (db : DB) (org : Organization)
    (cf : Except String (List MadaConversation)) : PassOut :=
  let logId := (DB.fresh db).1
  let db1 := (DB.fresh db).2
  let db2 := insertSyncLog db1 (openRow logId org.id "mada")
  match cf with
  | .error e => { db := closeSyncLogError db2 logId e, records := 0, logId := logId }
  | .ok convs =>
      let s := syncToVetorCore db2 convs
      { db := closeSyncLogSuccess s.1 logId s.2.1, records := s.2.1, logId := logId }

/-- One scheduled Mada pass for one organization (scheduled module lines
33-89): skip when either Supabase credential is missing; otherwise open a
sync log, fetch, run syncToVetorCore, and close the log with success
(joining the per-record errors into error_message) or with error. -/
def madaCronPassOrg (db : DB) (org : Organization)
    (cf : Except String (List MadaConversation)) : DB :=
  if !(jsTruthyS (org.crm_config.bind (fun c => c.mada_supabase_url))) ||
     !(jsTruthyS (org.crm_config.bind (fun c => c.mada_supabase_key))) then db
  else
    let logId := (DB.fresh db).1
    let db1 := (DB.fresh db).2
    let db2 := insertSyncLog db1 (openRow logId org.id "mada")
    match cf with
    | .error e => closeSyncLogError db2 logId e
    | .ok convs =>
        let s := syncToVetorCore db2 convs
        closeSyncLogSuccessMada s.1 logId s.2.1 s.2.2

/-- Branch guard of the manual Vetor sync (sync.ts line 59). -/
def vetorBranchOn (src : String) (org : Organization) : Bool :=
  (src == "vetor_imobi" || src == "all") && org.crm_type == CrmType.vetor

/-- Branch guard of the manual Mada sync (sync.ts line 251). -/
def madaBranchOn (src : String) (org : Organization) : Bool :=
  (src == "mada" || src == "all") && org.crm_type == CrmType.mada

/-- Response of POST /api/sync: the HTTP status, the error tag and message
of a non-2xx body, or the success body fields. -/
structure SyncResponse where
  httpStatus : Nat
  body_error : Option String := Option.none
  message : String := ""
  bodyStatus : Option String := Option.none
  recordsProcessed : Nat := 0
  syncLogIds : List Nat := []
deriving DecidableEq

def invalidSourceResp : SyncResponse :=
  { httpStatus := 400, body_error := some "Invalid source",
    message := "Source must be mada, vetor_imobi, or all" }

def orgNotFoundResp : SyncResponse :=
  { httpStatus := 404, body_error := some "Not found",
    message := "Organization not found" }

def vetorKeyMissingResp : SyncResponse :=
  { httpStatus := 400, body_error := some "Bad request",
    message := "Vetor Imobi API key not configured for this organization" }

def madaCredsMissingResp : SyncResponse :=
  { httpStatus := 400, body_error := some "Bad request",
    message := "Mada API credentials not configured for this organization" }

def okResp (src : String) (n : Nat) (ids : List Nat) : SyncResponse :=
  { httpStatus := 200, bodyStatus := some "success",
    message := "Sync triggered for " ++ src,
    recordsProcessed := n, syncLogIds := ids }

/-- Default lookback of the manual sync: const minutes = 525600 (365
days) unless the caller supplies a value. -/
def manualSyncMinutes (bodyMinutes : Option Nat) : Nat :=
  bodyMinutes.getD 525600

/-- POST /api/sync (sync.ts lines 16-317) for an authenticated caller of
organization uid. The external fetches are oracles: vf is the joint Vetor
fetch, mf the Mada fetch as a function of the lookback minutes actually
passed to fetchRecentConversations. The manual Vetor branch calls
fetchUsers, fetchClients, fetchDeals with no time filter, so vf takes no
window. Note that an orchestration failure inside a branch only closes
that sync log with error; control still reaches the final 200 response. -/
def postSync (db : DB) (uid : Nat) (src : String) (minutes : Option Nat)
    (vf : Except String VetorFetchData)
    (mf : Nat → Except String (List MadaConversation)) : SyncResponse × DB :=
  if !(["mada", "vetor_imobi", "all"].contains src) then (invalidSourceResp, db)
  else
    match db.organizations.find? (fun o => o.id == uid) with
    | Option.none => (orgNotFoundResp, db)
    | some org =>
      if vetorBranchOn src org && !(hasVetorKey org) then (vetorKeyMissingResp, db)
      else
        let vres : DB × Nat × List Nat :=
          if vetorBranchOn src org then
            let p := routeVetorPass db org vf
            (p.db, p.records, [p.logId])
          else (db, 0, [])
        if madaBranchOn src org && !(hasMadaCreds org) then
          (madaCredsMissingResp, vres.1)
        else
          let mres : DB × Nat × List Nat :=
            if madaBranchOn src org then
              let p := routeMadaPass vres.1 org (mf (manualSyncMinutes minutes))
              (p.db, p.records, [p.logId])
            else (vres.1, 0, [])
          (okResp src (vres.2.1 + mres.2.1) (vres.2.2 ++ mres.2.2), mres.1)

/-- Split a character list at every occurrence of the separator. -/
def splitAtSep (sep : Char) : List Char → List (List Char)
  | [] => [[]]
  | c :: cs =>
    let rest := splitAtSep sep cs
    if c == sep then [] :: rest
    else
      match rest with
      | [] => [[c]]
      | g :: gs => (c :: g) :: gs

/-- Decimal digits to a natural number; fails unless the list is a
non-empty run of digits (the \d+ group of the regex). -/
def digitsToNat? (cs : List Char) : Option Nat :=
  if !cs.isEmpty && cs.all Char.isDigit then
    some (cs.foldl (fun a c => a * 10 + (c.toNat - 48)) 0)
  else Option.none

/-- Parser of the cron expression (scheduled module lines 8-16): a
\*/N \* \* \* \* pattern (the final field optionally doubled, whitespace
separators modelled as runs of spaces) yields N minutes in milliseconds;
anything else falls back to five minutes. -/
def parseCronInterval (cron : String) : Nat :=
  match (splitAtSep ' ' cron.toList).filter (fun p => !p.isEmpty) with
  | [f, ['*'], ['*'], ['*'], last] =>
    if (last == ['*'] || last == ['*', '*']) && charsStartWith f ['*', '/'] then
      match digitsToNat? (f.drop 2) with
      | some n => n * 60 * 1000
      | Option.none => 5 * 60 * 1000
    else 5 * 60 * 1000
  | _ => 5 * 60 * 1000

/-- Configuration of one scheduled job: the timer period and the lookback
window each tick passes to the fetch. -/
structure ScheduledJob where
  intervalMs : Nat
  lookbackMinutes : Nat
deriving DecidableEq

/-- startVetorSyncJob (scheduled module lines 168-343): the timer fires
every parseCronInterval(cron) milliseconds and every tick fetches with
fetchRecentlyModified(30) - a fixed thirty-minute lookback. -/
def vetorSyncJob (cron : String) : ScheduledJob :=
  { intervalMs := parseCronInterval cron, lookbackMinutes := 30 }

/-- startMadaSyncJob (scheduled module lines 19-97): the timer fires every
parseCronInterval(cron) milliseconds and every tick fetches with
fetchRecentConversations(5) - a fixed five-minute lookback. -/
def madaSyncJob (cron : String) : ScheduledJob :=
  { intervalMs := parseCronInterval cron, lookbackMinutes := 5 }

/-- The manual route Vetor fetches (fetchUsers, fetchClients, fetchDeals
at sync.ts lines 95-99) pass no time filter at all: there is no lookback
window and the full external collections are returned. -/
def manualVetorFetchWindow : Option Nat := Option.none

/-- Organization A of the concrete scenarios: Vetor CRM with an API key. -/
def orgA : Organization :=
  { id := 0, crm_type := CrmType.vetor,
    crm_config := some { vetor_api_key := some "key-A" } }

/-- Broker owned by organization 1 whose external id collides with a
record fetched for organization 0. -/
def brokerB : Broker :=
  { id := 10, organization_id := 1, first_name := "Bruna", last_name := "Souza",
    email := some "bruna@orgb.example", crm_external_id := some "u1" }

/-- Deal owned by organization 1 whose property title collides with a
record fetched for organization 0. -/
def dealB : Deal :=
  { id := 20, organization_id := 1, external_id := some "D9",
    client_name := "Cliente B", property_title := some "Casa Azul" }

/-- Store of the tenant-isolation scenario: only rows of organization 1. -/
def dbTenant : DB :=
  { brokers := [brokerB], deals := [dealB], nextId := 50 }

/-- Fetch of the tenant-isolation scenario, delivered to the pass of
organization 0. -/
def fetchTenant : VetorFetchData :=
  { users := [{ id := some "u1", first_name := some "Alice",
                last_name := some "Lima", status := "active" }],
    deals := [{ id := some "D7", title := some "Casa Azul", stage := "visita" }] }

/-- Deal of organization 0 carrying an external id, for the matching-key
scenario. -/
def dealX : Deal :=
  { id := 20, organization_id := 0, external_id := some "X",
    client_name := "Cliente", property_title := some "Titulo antigo" }

def dbMatch : DB := { deals := [dealX], nextId := 40 }

/-- Fetched record with the same external id but a changed title. -/
def recMatch : VetorDeal := { id := some "X", title := some "Titulo novo" }

/-- Store of the note-duplication scenario: one deal with external id D1. -/
def dbNotes : DB :=
  { deals := [{ id := 20, organization_id := 0, external_id := some "D1",
                client_name := "Cliente" }], nextId := 50 }

/-- External note linked to deal D1, fetched unchanged on every sync. -/
def noteN1 : VetorNote :=
  { id := "n1", deal_id := some "D1", content := some "ligar amanha" }

/-- Store of the manual-route scenarios: organization A only. -/
def dbRoute : DB := { organizations := [orgA], nextId := 100 }

/-- Mada fetch oracle returning no conversations at any window. -/
def mfEmpty : Nat → Except String (List MadaConversation) := fun _ => .ok []

/-- Batch of the partial-failure scenario: the middle record is the
malformed one. -/
def fetchBatch : VetorFetchData :=
  { deals := [{ title := some "Imovel A" },
              { id := some "B7", title := some "Imovel B", malformed := true },
              { title := some "Imovel C" }] }

/-- Store and note of the dangling-note scenario: the note references an
external deal id no local deal carries. -/
def dbDangling : DB :=
  { deals := [{ id := 20, organization_id := 0, external_id := some "D1",
                client_name := "Cliente" }], nextId := 50 }

def noteDangling : VetorNote := { id := "n9", deal_id := some "ZZZ" }

/-- Mada-typed organization without stored credentials. -/
def orgMadaNoCreds : Organization := { id := 0, crm_type := CrmType.mada }

def dbMadaNoCreds : DB := { organizations := [orgMadaNoCreds], nextId := 7 }

/-- Sync-log lifecycle contract of one pass: exactly one row is opened on
the pre store and the post store holds exactly that row, closed with a
terminal status and a completion timestamp; the ghost trace shows one open
as running followed by exactly one close. -/
def SyncPassLogSpec (pre post : DB) (orgId : Nat) : Prop :=
  ∃ final : SyncLog,
    post.sync_logs = final :: pre.sync_logs ∧
    final.id = pre.nextId ∧
    final.organization_id = orgId ∧
    final.source = "vetor_imobi" ∧
    (final.status = "success" ∨ final.status = "error") ∧
    final.completed_at = true ∧
    post.syncOps = (pre.nextId, final.status) :: (pre.nextId, "running") :: pre.syncOps

/-- Frame predicate: an operation touched neither the sync_logs table nor
the ghost trace. -/
def SyncFrame (a b : DB) : Prop :=
  b.sync_logs = a.sync_logs ∧ b.syncOps = a.syncOps

/-
Theorems. Claim theorems are named claimN_theorem with companions
claimN_counterexample / claimN_witness / claimN_code_bug as applicable.
-/

/-- Claim C1 (code bug): tenant isolation fails in the scheduled pass. A
Vetor sync pass executed for organization 0 on a store holding only rows
of organization 1 updates organization 1's broker in place (first and last
name overwritten) and reassigns organization 1's deal to organization 0,
because the scheduled broker and deal lookups are not organization-scoped
while the deal set clause writes organization_id. -/
theorem claim1_code_bug :
    ((vetorCronPassOrg dbTenant orgA (.ok fetchTenant) (.ok [])).brokers.length = 1 ∧
     ∀ b ∈ (vetorCronPassOrg dbTenant orgA (.ok fetchTenant) (.ok [])).brokers,
       b.id = 10 ∧ b.organization_id = 1 ∧ b.first_name = "Alice" ∧ b.last_name = "Lima") ∧
    ((vetorCronPassOrg dbTenant orgA (.ok fetchTenant) (.ok [])).deals.length = 1 ∧
     ∀ d ∈ (vetorCronPassOrg dbTenant orgA (.ok fetchTenant) (.ok [])).deals,
       d.id = 20 ∧ d.organization_id = 0 ∧ d.external_id = some "D7" ∧
       d.status = "Negotiation") ∧
    brokerB.organization_id = 1 ∧ brokerB.first_name = "Bruna" ∧
    dealB.organization_id = 1 ∧ orgA.id = 0 := by decide

/-- Claim C2 (code bug): note ingestion is not idempotent. Syncing the
same unchanged external note twice against the same store leaves two
activity_logs rows carrying the same external note id crm_note_id = n1,
both attached to the same deal: the insert uses a fresh random primary key
and onConflictDoNothing can only fire on a primary-key collision, since
the schema has no uniqueness on the metadata note id. -/
theorem claim2_code_bug :
    ((syncVetorNotesModel (syncVetorNotesModel dbNotes (.ok [noteN1])) (.ok [noteN1])).activity_logs.filter
       (fun a => a.crm_note_id == some "n1")).length = 2 ∧
    (∀ a ∈ (syncVetorNotesModel (syncVetorNotesModel dbNotes (.ok [noteN1])) (.ok [noteN1])).activity_logs,
       a.deal_id = 20 ∧ a.crm_note_id = some "n1" ∧ a.type = "note") := by decide

/-- Claim C3 (counterexample): reconciliation does not select the matching
deal by external id first. On a store holding one deal of organization 0
with external id X, a fetched record with the same external id X but a
changed title matches under the specification rule (specFindDeal) yet the
route and scheduled lookups both find nothing, and running the route deal
loop inserts a second deal instead of updating the stored one. -/
theorem claim3_counterexample :
    specFindDeal dbMatch 0 recMatch = some dealX ∧
    routeFindDeal dbMatch 0 recMatch = Option.none ∧
    cronFindDeal dbMatch recMatch = Option.none ∧
    (routeSyncDeals 0 [] dbMatch [recMatch] 0).1.deals.length = 2 := by decide

/-- Claim C4 (counterexample): a manual sync whose pass fails with an
orchestration-level error does not return a non-2xx status. With the Vetor
fetch rejecting, POST /api/sync answers HTTP 200 with body status success
while the sync log row it opened is closed as error. -/
theorem claim4_counterexample :
    (postSync dbRoute 0 "vetor_imobi" Option.none
        (.error "Vetor API error: 503 Service Unavailable") mfEmpty).1.httpStatus = 200 ∧
    (postSync dbRoute 0 "vetor_imobi" Option.none
        (.error "Vetor API error: 503 Service Unavailable") mfEmpty).1.bodyStatus = some "success" ∧
    (postSync dbRoute 0 "vetor_imobi" Option.none
        (.error "Vetor API error: 503 Service Unavailable") mfEmpty).2.sync_logs.length = 1 ∧
    (∀ r ∈ (postSync dbRoute 0 "vetor_imobi" Option.none
        (.error "Vetor API error: 503 Service Unavailable") mfEmpty).2.sync_logs,
       r.status = "error" ∧
       r.error_message = some "Vetor API error: 503 Service Unavailable") := by decide

/-- Claim C7 (counterexample): with a batch of three deal records whose
middle record is malformed, the pass closes successfully with processed
count 2, but no error string is recorded on the pass result: the sync log
row ends with error_message NULL, the route having swallowed the
per-record error. -/
theorem claim7_counterexample :
    (routeVetorPass dbRoute orgA (.ok fetchBatch)).records = 2 ∧
    (routeVetorPass dbRoute orgA (.ok fetchBatch)).db.sync_logs.length = 1 ∧
    (∀ r ∈ (routeVetorPass dbRoute orgA (.ok fetchBatch)).db.sync_logs,
       r.status = "success" ∧ r.records_processed = 2 ∧
       r.error_message = Option.none) := by decide

/-- Claim C8 (counterexample): a manual trigger for source mada on an
organization whose crm_type is vetor and which stores no Mada credentials
does not return a 4xx: the Mada branch is skipped entirely and the call
answers HTTP 200, creating no sync log row. -/
theorem claim8_counterexample :
    hasMadaCreds orgA = false ∧
    (postSync dbRoute 0 "mada" Option.none (.ok {}) mfEmpty).1.httpStatus = 200 ∧
    (postSync dbRoute 0 "mada" Option.none (.ok {}) mfEmpty).2.sync_logs = [] := by decide

/-- Claim C6 (counterexample): the stage mapping is not case-insensitive.
The capitalized stage Perdido contains the lost keyword only up to case:
the code maps it to New while the case-insensitive mapping of the
specification maps it to Lost. -/
theorem claim6_counterexample :
    mapVetorStage "Perdido" = "New" ∧
    mapStageSpecCI "Perdido" = "Lost" ∧
    mapVetorStage "Perdido" ≠ mapStageSpecCI "Perdido" := by decide

/-- Claim C9 (counterexample): a scheduled tick does not use the
configured interval's own minute count as the lookback window. With the
cron expression every ten minutes, the timer period is ten minutes but the
Vetor tick still fetches with a thirty-minute window and the Mada tick
with a five-minute window. -/
theorem claim9_counterexample :
    parseCronInterval "*/10 * * * *" = 10 * 60 * 1000 ∧
    (vetorSyncJob "*/10 * * * *").lookbackMinutes = 30 ∧
    (vetorSyncJob "*/10 * * * *").lookbackMinutes ≠
      (vetorSyncJob "*/10 * * * *").intervalMs / (60 * 1000) ∧
    (madaSyncJob "*/10 * * * *").lookbackMinutes ≠
      (madaSyncJob "*/10 * * * *").intervalMs / (60 * 1000) := by decide

/-- Claim C9 (amended): every scheduled Vetor tick uses a fixed
thirty-minute lookback and every scheduled Mada tick a fixed five-minute
lookback, whatever interval the cron expression configures; a manual sync
defaults the minutes parameter to 525600 (365 days) and passes a
caller-supplied value through unchanged to the Mada fetch, while the
manual Vetor fetch applies no time window at all. -/
theorem claim9_theorem (cron : String) (m : Nat) :
    (vetorSyncJob cron).lookbackMinutes = 30 ∧
    (madaSyncJob cron).lookbackMinutes = 5 ∧
    manualSyncMinutes Option.none = 525600 ∧
    manualSyncMinutes (some m) = m ∧
    manualVetorFetchWindow = Option.none :=
  ⟨rfl, rfl, rfl, rfl, rfl⟩
/-- Claim C6 (amended): the stage mapping is total into the six statuses,
maps the empty stage to New, and decides by case-sensitive substring match
in the stated priority order (first matching keyword of the priority table
wins; unrecognized stages map to New). -/
theorem claim6_theorem (stage : String) :
    mapVetorStage stage ∈ dealStatuses ∧
    mapVetorStage stage = mapStageOrdered stage ∧
    mapVetorStage "" = "New" := by
  have key : mapVetorStage stage = mapStageOrdered stage := by
    unfold mapVetorStage mapStageOrdered stageKeywordTable
    cases h0 : (stage == "") <;>
    cases h1 : jsIncludes stage "perdido" <;>
    cases h2 : jsIncludes stage "fechado" <;>
    cases h3 : jsIncludes stage "proposta" <;>
    cases h4 : jsIncludes stage "negociacao" <;>
    cases h5 : jsIncludes stage "visita" <;>
    cases h6 : jsIncludes stage "qualificacao" <;>
    simp [h0, h1, h2, h3, h4, h5, h6, List.find?]
  refine ⟨?_, key, by decide⟩
  rw [key]
  unfold mapStageOrdered
  by_cases h0 : stage = ""
  · simp [h0, dealStatuses]
  · have h0b : (stage == "") = false := by simp [h0]
    simp only [h0b, Bool.false_eq_true, if_false]
    cases hf : stageKeywordTable.find? (fun kv => jsIncludes stage kv.1) with
    | none => simp [dealStatuses]
    | some kv =>
      have hm : kv ∈ stageKeywordTable := List.mem_of_find?_eq_some hf
      simp only [stageKeywordTable, List.mem_cons, List.not_mem_nil, or_false] at hm
      rcases hm with h | h | h | h | h | h <;> simp [h, dealStatuses]
/-- Claim C10: for a non-archived external note whose deal link resolves to
no local deal, syncVetorNotes still attempts the activity-log insert with a
freshly generated random UUID as deal_id (two fresh ids are consumed: one
for the row, one for the dangling deal_id) and, the NOT NULL foreign key
to deals.id failing, the note is never persisted: the activity_logs table
is unchanged. -/
theorem claim10_theorem (db : DB) (note : VetorNote)
    (hwf : db.WF) (harch : note.is_archived = false)
    (hlook : vetorNoteDealLookup db note = Option.none) :
    syncOneVetorNote db note = { db with nextId := db.nextId + 2 } ∧
    insertActivityLogConflictSkip { db with nextId := db.nextId + 2 }
      { id := db.nextId, deal_id := db.nextId + 1, type := "note",
        description := jsOrS note.content (jsOrS note.title ""),
        crm_note_id := some note.id } =
      .error "insert on table activity_logs violates foreign key constraint on deal_id" ∧
    (syncOneVetorNote db note).activity_logs = db.activity_logs := by
  obtain ⟨_hb, hd, ha, _hs⟩ := hwf
  have hanyA : (db.activity_logs.any (fun a => a.id == db.nextId)) = false := by
    rw [List.any_eq_false]
    intro a hmem
    have hlt := ha a hmem
    simp [Nat.ne_of_lt hlt]
  have hanyD : (db.deals.any (fun d => d.id == db.nextId + 1)) = false := by
    rw [List.any_eq_false]
    intro d hmem
    have hlt := hd d hmem
    have hne : d.id ≠ db.nextId + 1 := by omega
    simp [hne]
  have hrun : syncOneVetorNote db note = { db with nextId := db.nextId + 2 } := by
    unfold syncOneVetorNote insertActivityLogConflictSkip insertActivityLogChecked
    simp [harch, hlook, DB.fresh, hanyA, hanyD]
  refine ⟨hrun, ?_, by rw [hrun]⟩
  unfold insertActivityLogConflictSkip insertActivityLogChecked
  simp [hanyA, hanyD]
/-- Witness for claim C10 at a concrete store: a note whose deal link ZZZ
matches no stored external id. -/
theorem claim10_witness :
    syncOneVetorNote dbDangling noteDangling = { dbDangling with nextId := dbDangling.nextId + 2 } ∧
    insertActivityLogConflictSkip { dbDangling with nextId := dbDangling.nextId + 2 }
      { id := dbDangling.nextId, deal_id := dbDangling.nextId + 1, type := "note",
        description := jsOrS noteDangling.content (jsOrS noteDangling.title ""),
        crm_note_id := some noteDangling.id } =
      .error "insert on table activity_logs violates foreign key constraint on deal_id" ∧
    (syncOneVetorNote dbDangling noteDangling).activity_logs = dbDangling.activity_logs :=
  claim10_theorem dbDangling noteDangling (by decide) (by decide) (by decide)
theorem sf_rfl (a : DB) : SyncFrame a a := ⟨rfl, rfl⟩

theorem sf_trans {a b c : DB} (h1 : SyncFrame a b) (h2 : SyncFrame b c) :
    SyncFrame a c :=
  ⟨h2.1.trans h1.1, h2.2.trans h1.2⟩

theorem sf_cronSyncOneUser (db : DB) (o : Nat) (u : VetorUser) :
    SyncFrame db (cronSyncOneUser db o u) := by
  unfold SyncFrame cronSyncOneUser
  cases cronFindBroker db u <;> simp [DB.fresh]

theorem sf_cronSyncUsers (o : Nat) (us : List VetorUser) :
    ∀ (db : DB) (n : Nat), SyncFrame db (cronSyncUsers o db us n).1 := by
  induction us with
  | nil => intro db n; exact sf_rfl db
  | cons u us ih =>
    intro db n
    rw [cronSyncUsers]
    exact sf_trans (sf_cronSyncOneUser db o u) (ih _ _)

theorem sf_cronSyncOneDeal (db : DB) (o : Nat) (r : VetorDeal) (db' : DB)
    (h : cronSyncOneDeal db o r = .ok db') : SyncFrame db db' := by
  unfold cronSyncOneDeal at h
  cases hm : r.malformed <;> rw [hm] at h
  · cases hfind : cronFindDeal db r <;> rw [hfind] at h <;>
      simp only [Bool.false_eq_true, if_false, Except.ok.injEq] at h <;>
      subst h <;> exact ⟨rfl, rfl⟩
  · simp at h

theorem sf_cronSyncDeals (o : Nat) (recs : List VetorDeal) :
    ∀ (db : DB) (n : Nat), SyncFrame db (cronSyncDeals o db recs n).1 := by
  induction recs with
  | nil => intro db n; exact sf_rfl db
  | cons r recs ih =>
    intro db n
    rw [cronSyncDeals]
    cases h : cronSyncOneDeal db o r with
    | ok db1 => exact sf_trans (sf_cronSyncOneDeal db o r db1 h) (ih _ _)
    | error _ => exact ih _ _

theorem sf_insertChecked (db : DB) (row : ActivityLog) (db' : DB)
    (h : insertActivityLogChecked db row = .ok db') : SyncFrame db db' := by
  unfold insertActivityLogChecked at h
  by_cases hc : db.deals.any (fun d => d.id == row.deal_id) = true
  · simp only [hc, if_true, Except.ok.injEq] at h
    subst h; exact ⟨rfl, rfl⟩
  · simp [hc] at h

theorem sf_insertSkip (db : DB) (row : ActivityLog) (db' : DB)
    (h : insertActivityLogConflictSkip db row = .ok db') : SyncFrame db db' := by
  unfold insertActivityLogConflictSkip at h
  by_cases hc : db.activity_logs.any (fun a => a.id == row.id) = true
  · simp only [hc, if_true, Except.ok.injEq] at h
    subst h; exact sf_rfl _
  · simp only [hc, if_false] at h
    exact sf_insertChecked db row db' h

theorem sf_syncOneVetorNote (db : DB) (note : VetorNote) :
    SyncFrame db (syncOneVetorNote db note) := by
  unfold syncOneVetorNote
  cases harch : note.is_archived
  · simp only [Bool.false_eq_true, if_false]
    cases hlook : vetorNoteDealLookup db note
    all_goals
      split
      next db2 hins =>
        exact ⟨(sf_insertSkip _ _ _ hins).1, (sf_insertSkip _ _ _ hins).2⟩
      next e hins => exact ⟨rfl, rfl⟩
  · simp only [if_true]
    exact sf_rfl db

theorem sf_syncVetorNotesModel (fetched : Except String (List VetorNote)) :
    ∀ db : DB, SyncFrame db (syncVetorNotesModel db fetched) := by
  cases fetched with
  | error e => intro db; exact sf_rfl db
  | ok notes =>
    induction notes with
    | nil => intro db; exact sf_rfl db
    | cons nt nts ih =>
      intro db
      show SyncFrame db ((nt :: nts).foldl syncOneVetorNote db)
      rw [List.foldl_cons]
      exact sf_trans (sf_syncOneVetorNote db nt) (ih _)
theorem sf_routeSyncOneUser (db : DB) (o : Nat) (u : VetorUser) :
    SyncFrame db (routeSyncOneUser db o u) := by
  unfold SyncFrame routeSyncOneUser
  cases cronFindBroker db u with
  | none => simp [DB.fresh]
  | some existing =>
    cases h : existing.organization_id == o <;> simp [h, DB.fresh]

theorem sf_routeSyncUsers (o : Nat) (us : List VetorUser) :
    ∀ (db : DB) (n : Nat), SyncFrame db (routeSyncUsers o db us n).1 := by
  induction us with
  | nil => intro db n; exact sf_rfl db
  | cons u us ih =>
    intro db n
    rw [routeSyncUsers]
    exact sf_trans (sf_routeSyncOneUser db o u) (ih _ _)

theorem sf_routeNoteStep (db : DB) (dealId : Nat) (rec : VetorDeal) (db' : DB)
    (h : routeNoteStep db dealId rec = .ok db') : SyncFrame db db' := by
  unfold routeNoteStep at h
  cases hn : jsTruthyS rec.notes <;> rw [hn] at h
  · simp only [Bool.false_eq_true, if_false, Except.ok.injEq] at h
    subst h; exact sf_rfl _
  · simp only [if_true] at h
    have h2 := sf_insertChecked _ _ _ h
    exact ⟨h2.1, h2.2⟩

theorem sf_routeSyncOneDeal (db : DB) (o : Nat) (cs : List VetorClient)
    (r : VetorDeal) (db' : DB)
    (h : routeSyncOneDeal db o cs r = .ok db') : SyncFrame db db' := by
  unfold routeSyncOneDeal at h
  cases hm : r.malformed <;> rw [hm] at h
  · simp only [Bool.false_eq_true, if_false] at h
    cases hfind : routeFindDeal db o r <;> rw [hfind] at h <;>
    · have h2 := sf_routeNoteStep _ _ _ _ h
      exact ⟨h2.1, h2.2⟩
  · simp at h

theorem sf_routeSyncDeals (o : Nat) (cs : List VetorClient) (recs : List VetorDeal) :
    ∀ (db : DB) (n : Nat), SyncFrame db (routeSyncDeals o cs db recs n).1 := by
  induction recs with
  | nil => intro db n; exact sf_rfl db
  | cons r recs ih =>
    intro db n
    rw [routeSyncDeals]
    cases h : routeSyncOneDeal db o cs r with
    | ok db1 => exact sf_trans (sf_routeSyncOneDeal db o cs r db1 h) (ih _ _)
    | error _ => exact ih _ _

theorem map_id_of_ne (old : List SyncLog) (logId : Nat) (f : SyncLog → SyncLog)
    (hold : ∀ r ∈ old, r.id ≠ logId) :
    old.map (fun r => if r.id == logId then f r else r) = old := by
  induction old with
  | nil => rfl
  | cons a l ih =>
    have ha : (a.id == logId) = false := by
      simp [hold a (List.mem_cons_self a l)]
    simp only [List.map_cons, ha, Bool.false_eq_true, if_false]
    rw [ih (fun r hr => hold r (List.mem_cons_of_mem a hr))]

theorem map_close_cons (old : List SyncLog) (logId : Nat) (row : SyncLog)
    (f : SyncLog → SyncLog) (hrow : row.id = logId)
    (hold : ∀ r ∈ old, r.id ≠ logId) :
    (row :: old).map (fun r => if r.id == logId then f r else r) = f row :: old := by
  simp only [List.map_cons, hrow, beq_self_eq_true, if_true]
  rw [map_id_of_ne old logId f hold]
theorem sf_vetorCronBody (db2 : DB) (o : Nat) (data : VetorFetchData)
    (nf : Except String (List VetorNote)) :
    SyncFrame db2 (vetorCronBody db2 o data nf).1 := by
  unfold vetorCronBody
  exact sf_trans (sf_cronSyncUsers o data.users db2 0)
    (sf_trans (sf_cronSyncDeals o data.deals _ _) (sf_syncVetorNotesModel nf _))

theorem sf_routeVetorBody (db2 : DB) (o : Nat) (data : VetorFetchData) :
    SyncFrame db2 (routeVetorBody db2 o data).1 := by
  unfold routeVetorBody
  exact sf_trans (sf_routeSyncUsers o data.users db2 0)
    (sf_routeSyncDeals o data.clients data.deals _ _)

theorem closeSuccess_shape (db dbx : DB) (logId n orgId : Nat) (src : String)
    (hlogsx : dbx.sync_logs = openRow logId orgId src :: db.sync_logs)
    (hopsx : dbx.syncOps = (logId, "running") :: db.syncOps)
    (hold : ∀ r ∈ db.sync_logs, r.id ≠ logId) :
    (closeSyncLogSuccess dbx logId n).sync_logs =
      setSuccess n (openRow logId orgId src) :: db.sync_logs ∧
    (closeSyncLogSuccess dbx logId n).syncOps =
      (logId, "success") :: (logId, "running") :: db.syncOps := by
  constructor
  · show dbx.sync_logs.map _ = _
    rw [hlogsx]
    exact map_close_cons db.sync_logs logId _ _ rfl hold
  · show (logId, "success") :: dbx.syncOps = _
    rw [hopsx]

theorem closeError_shape (db dbx : DB) (logId orgId : Nat) (src msg : String)
    (hlogsx : dbx.sync_logs = openRow logId orgId src :: db.sync_logs)
    (hopsx : dbx.syncOps = (logId, "running") :: db.syncOps)
    (hold : ∀ r ∈ db.sync_logs, r.id ≠ logId) :
    (closeSyncLogError dbx logId msg).sync_logs =
      setError msg (openRow logId orgId src) :: db.sync_logs ∧
    (closeSyncLogError dbx logId msg).syncOps =
      (logId, "error") :: (logId, "running") :: db.syncOps := by
  constructor
  · show dbx.sync_logs.map _ = _
    rw [hlogsx]
    exact map_close_cons db.sync_logs logId _ _ rfl hold
  · show (logId, "error") :: dbx.syncOps = _
    rw [hopsx]
theorem routeVetorPass_logSpec (db : DB) (org : Organization)
    (cf : Except String VetorFetchData)
    (hold : ∀ r ∈ db.sync_logs, r.id ≠ db.nextId) :
    SyncPassLogSpec db (routeVetorPass db org cf).db org.id := by
  cases cf with
  | error e =>
    have hsh := closeError_shape db
      (insertSyncLog (DB.fresh db).2 (openRow db.nextId org.id "vetor_imobi"))
      db.nextId org.id "vetor_imobi" e rfl rfl hold
    exact ⟨setError e (openRow db.nextId org.id "vetor_imobi"),
      hsh.1, rfl, rfl, rfl, Or.inr rfl, rfl, hsh.2⟩
  | ok data =>
    have hf := sf_routeVetorBody
      (insertSyncLog (DB.fresh db).2 (openRow db.nextId org.id "vetor_imobi"))
      org.id data
    have hsh := closeSuccess_shape db
      (routeVetorBody (insertSyncLog (DB.fresh db).2 (openRow db.nextId org.id "vetor_imobi")) org.id data).1
      db.nextId
      (routeVetorBody (insertSyncLog (DB.fresh db).2 (openRow db.nextId org.id "vetor_imobi")) org.id data).2
      org.id "vetor_imobi" hf.1 hf.2 hold
    exact ⟨setSuccess
        (routeVetorBody (insertSyncLog (DB.fresh db).2 (openRow db.nextId org.id "vetor_imobi")) org.id data).2
        (openRow db.nextId org.id "vetor_imobi"),
      hsh.1, rfl, rfl, rfl, Or.inl rfl, rfl, hsh.2⟩

theorem vetorCron_logSpec (db : DB) (org : Organization)
    (vf : Except String VetorFetchData) (nf : Except String (List VetorNote))
    (hkey : hasVetorKey org = true)
    (hold : ∀ r ∈ db.sync_logs, r.id ≠ db.nextId) :
    SyncPassLogSpec db (vetorCronPassOrg db org vf nf) org.id := by
  unfold vetorCronPassOrg
  rw [hkey]
  simp only [Bool.not_true, Bool.false_eq_true, if_false]
  cases vf with
  | error e =>
    have hsh := closeError_shape db
      (insertSyncLog (DB.fresh db).2 (openRow db.nextId org.id "vetor_imobi"))
      db.nextId org.id "vetor_imobi" e rfl rfl hold
    exact ⟨setError e (openRow db.nextId org.id "vetor_imobi"),
      hsh.1, rfl, rfl, rfl, Or.inr rfl, rfl, hsh.2⟩
  | ok data =>
    have hf := sf_vetorCronBody
      (insertSyncLog (DB.fresh db).2 (openRow db.nextId org.id "vetor_imobi"))
      org.id data nf
    have hsh := closeSuccess_shape db
      (vetorCronBody (insertSyncLog (DB.fresh db).2 (openRow db.nextId org.id "vetor_imobi")) org.id data nf).1
      db.nextId
      (vetorCronBody (insertSyncLog (DB.fresh db).2 (openRow db.nextId org.id "vetor_imobi")) org.id data nf).2
      org.id "vetor_imobi" hf.1 hf.2 hold
    exact ⟨setSuccess
        (vetorCronBody (insertSyncLog (DB.fresh db).2 (openRow db.nextId org.id "vetor_imobi")) org.id data nf).2
        (openRow db.nextId org.id "vetor_imobi"),
      hsh.1, rfl, rfl, rfl, Or.inl rfl, rfl, hsh.2⟩

/-- Claim C5: a sync pass for an organization with credentials configured
opens exactly one sync log row (status running, records 0) and closes
exactly that row exactly once, ending with status success or error and a
completion flag; after the pass no new row remains running. The property
is proved for the scheduled Vetor pass and for the Vetor branch of the
manual route; the ghost trace pins open and close to one write each. -/
theorem claim5_theorem (db : DB) (org : Organization)
    (vf cf : Except String VetorFetchData) (nf : Except String (List VetorNote))
    (hwf : db.WF) (hkey : hasVetorKey org = true) :
    SyncPassLogSpec db (vetorCronPassOrg db org vf nf) org.id ∧
    SyncPassLogSpec db (routeVetorPass db org cf).db org.id := by
  have hold : ∀ r ∈ db.sync_logs, r.id ≠ db.nextId :=
    fun r hr => Nat.ne_of_lt (hwf.2.2.2 r hr)
  exact ⟨vetorCron_logSpec db org vf nf hkey hold,
         routeVetorPass_logSpec db org cf hold⟩
/-- Witness for claim C5 on a concrete store and organization, for both an
empty successful fetch and the two pass kinds. -/
theorem claim5_witness :
    SyncPassLogSpec dbRoute (vetorCronPassOrg dbRoute orgA (.ok {}) (.ok [])) orgA.id ∧
    SyncPassLogSpec dbRoute (routeVetorPass dbRoute orgA (.ok {})).db orgA.id :=
  claim5_theorem dbRoute orgA (.ok {}) (.ok {}) (.ok []) (by decide) (by decide)
/-- Claim C4 (amended): a manual sync whose pass fails with an
orchestration-level error does not return a non-2xx. For any store, any
Vetor-typed organization with an API key and any fetch error, POST
/api/sync answers HTTP 200 with body status success, while the sync log
row opened by the pass is closed with status error, the raw message and a
completion flag; only validation, lookup and handler-level failures
produce non-2xx responses. -/
theorem claim4_theorem (db : DB) (uid : Nat) (src : String) (minutes : Option Nat)
    (e : String) (mf : Nat → Except String (List MadaConversation)) (org : Organization)
    (hwf : db.WF)
    (hfind : db.organizations.find? (fun o => o.id == uid) = some org)
    (hsrc : src = "vetor_imobi" ∨ src = "all")
    (htype : org.crm_type = CrmType.vetor)
    (hkey : hasVetorKey org = true) :
    (postSync db uid src minutes (.error e) mf).1.httpStatus = 200 ∧
    (postSync db uid src minutes (.error e) mf).1.bodyStatus = some "success" ∧
    (postSync db uid src minutes (.error e) mf).2.sync_logs =
      setError e (openRow db.nextId org.id "vetor_imobi") :: db.sync_logs ∧
    (setError e (openRow db.nextId org.id "vetor_imobi")).status = "error" ∧
    (setError e (openRow db.nextId org.id "vetor_imobi")).error_message = some e ∧
    (setError e (openRow db.nextId org.id "vetor_imobi")).completed_at = true := by
  have hold : ∀ r ∈ db.sync_logs, r.id ≠ db.nextId :=
    fun r hr => Nat.ne_of_lt (hwf.2.2.2 r hr)
  have hsh := closeError_shape db
    (insertSyncLog (DB.fresh db).2 (openRow db.nextId org.id "vetor_imobi"))
    db.nextId org.id "vetor_imobi" e rfl rfl hold
  rcases hsrc with h | h <;> subst h
  · have hvb : vetorBranchOn "vetor_imobi" org = true := by
      simp [vetorBranchOn, htype]
    have hmb : madaBranchOn "vetor_imobi" org = false := by
      simp [madaBranchOn, htype]
    have hred : postSync db uid "vetor_imobi" minutes (.error e) mf =
        (okResp "vetor_imobi" ((routeVetorPass db org (.error e)).records + 0)
          ([(routeVetorPass db org (.error e)).logId] ++ []),
         (routeVetorPass db org (.error e)).db) := by
      unfold postSync
      rw [hfind]
      simp only [hvb, hmb, hkey, Bool.not_true, Bool.and_false, Bool.false_eq_true,
        if_false, if_true, Bool.true_and, Bool.false_and, List.contains_cons]
      simp
    rw [hred]
    exact ⟨rfl, rfl, hsh.1, rfl, rfl, rfl⟩
  · have hvb : vetorBranchOn "all" org = true := by
      simp [vetorBranchOn, htype]
    have hmb : madaBranchOn "all" org = false := by
      simp [madaBranchOn, htype,
        show (CrmType.vetor == CrmType.mada) = false from rfl]
    have hred : postSync db uid "all" minutes (.error e) mf =
        (okResp "all" ((routeVetorPass db org (.error e)).records + 0)
          ([(routeVetorPass db org (.error e)).logId] ++ []),
         (routeVetorPass db org (.error e)).db) := by
      unfold postSync
      rw [hfind]
      simp only [hvb, hmb, hkey, Bool.not_true, Bool.and_false, Bool.false_eq_true,
        if_false, if_true, Bool.true_and, Bool.false_and, List.contains_cons]
      simp
    rw [hred]
    exact ⟨rfl, rfl, hsh.1, rfl, rfl, rfl⟩
/-- Witness for claim C4 at a concrete store, organization and fetch
error. -/
theorem claim4_witness :
    (postSync dbRoute 0 "vetor_imobi" Option.none (.error "falha") mfEmpty).1.httpStatus = 200 ∧
    (postSync dbRoute 0 "vetor_imobi" Option.none (.error "falha") mfEmpty).1.bodyStatus = some "success" ∧
    (postSync dbRoute 0 "vetor_imobi" Option.none (.error "falha") mfEmpty).2.sync_logs =
      setError "falha" (openRow dbRoute.nextId orgA.id "vetor_imobi") :: dbRoute.sync_logs ∧
    (setError "falha" (openRow dbRoute.nextId orgA.id "vetor_imobi")).status = "error" ∧
    (setError "falha" (openRow dbRoute.nextId orgA.id "vetor_imobi")).error_message = some "falha" ∧
    (setError "falha" (openRow dbRoute.nextId orgA.id "vetor_imobi")).completed_at = true :=
  claim4_theorem dbRoute 0 "vetor_imobi" Option.none "falha" mfEmpty orgA
    (by decide) (by decide) (Or.inl rfl) (by decide) (by decide)
/-- Claim C8 (amended): a manual trigger for a source whose credentials
are missing returns 400 with a credentials-not-configured message and
leaves the store untouched (in particular no sync log row is created) -
provided the organization's crm_type matches the requested source; when
the crm_type differs, the branch is skipped silently (see the
counterexample) and still no sync log row is created. -/
theorem claim8_theorem (db : DB) (uid : Nat) (src : String) (minutes : Option Nat)
    (vf : Except String VetorFetchData) (mf : Nat → Except String (List MadaConversation))
    (org : Organization)
    (hfind : db.organizations.find? (fun o => o.id == uid) = some org)
    (hvalid : ["mada", "vetor_imobi", "all"].contains src = true)
    (hmatch : (vetorBranchOn src org = true ∧ hasVetorKey org = false) ∨
              (madaBranchOn src org = true ∧ hasMadaCreds org = false)) :
    (postSync db uid src minutes vf mf).1.httpStatus = 400 ∧
    jsIncludes (postSync db uid src minutes vf mf).1.message "not configured" = true ∧
    (postSync db uid src minutes vf mf).2 = db := by
  rcases hmatch with ⟨hvb, hkey⟩ | ⟨hmb, hnm⟩
  · have hred : postSync db uid src minutes vf mf = (vetorKeyMissingResp, db) := by
      unfold postSync
      rw [hfind]
      simp only [hvalid, hvb, hkey, Bool.not_true, Bool.not_false, Bool.true_and,
        Bool.false_eq_true, if_false, if_true]
    rw [hred]
    refine ⟨rfl, ?_, rfl⟩
    show jsIncludes vetorKeyMissingResp.message "not configured" = true
    decide
  · have hmb2 := hmb
    unfold madaBranchOn at hmb2
    simp only [Bool.and_eq_true, beq_iff_eq] at hmb2
    have htype : org.crm_type = CrmType.mada := hmb2.2
    have hvb : vetorBranchOn src org = false := by
      unfold vetorBranchOn
      rw [htype]
      simp [show (CrmType.mada == CrmType.vetor) = false from rfl]
    have hred : postSync db uid src minutes vf mf = (madaCredsMissingResp, db) := by
      unfold postSync
      rw [hfind]
      simp only [hvalid, hvb, hmb, hnm, Bool.not_true, Bool.not_false, Bool.true_and,
        Bool.false_and, Bool.false_eq_true, if_false, if_true]
    rw [hred]
    refine ⟨rfl, ?_, rfl⟩
    show jsIncludes madaCredsMissingResp.message "not configured" = true
    decide
/-- Witness for claim C8: a Mada-typed organization with no stored
credentials, manual trigger with source mada. -/
theorem claim8_witness :
    (postSync dbMadaNoCreds 0 "mada" Option.none (.ok {}) mfEmpty).1.httpStatus = 400 ∧
    jsIncludes (postSync dbMadaNoCreds 0 "mada" Option.none (.ok {}) mfEmpty).1.message
      "not configured" = true ∧
    (postSync dbMadaNoCreds 0 "mada" Option.none (.ok {}) mfEmpty).2 = dbMadaNoCreds :=
  claim8_theorem dbMadaNoCreds 0 "mada" Option.none (.ok {}) mfEmpty orgMadaNoCreds
    (by decide) (by decide) (Or.inr ⟨by decide, by decide⟩)
theorem routeNoteStep_isOk (db : DB) (dealId : Nat) (rec : VetorDeal)
    (h : db.deals.any (fun d => d.id == dealId) = true) :
    (routeNoteStep db dealId rec).isOk = true := by
  unfold routeNoteStep
  cases hn : jsTruthyS rec.notes
  · rfl
  · unfold insertActivityLogChecked
    simp [DB.fresh, h, Except.isOk, Except.toBool]

theorem routeSyncOneDeal_isOk (db : DB) (o : Nat) (cs : List VetorClient)
    (r : VetorDeal) (hm : r.malformed = false) :
    (routeSyncOneDeal db o cs r).isOk = true := by
  unfold routeSyncOneDeal
  rw [hm]
  simp only [Bool.false_eq_true, if_false]
  cases hfind : routeFindDeal db o r with
  | some d0 =>
    apply routeNoteStep_isOk
    rw [List.any_eq_true]
    exact ⟨_, List.mem_map_of_mem _ (List.mem_of_find?_eq_some hfind), by simp⟩
  | none =>
    apply routeNoteStep_isOk
    rw [List.any_eq_true]
    exact ⟨_, List.mem_cons_self _ _, by simp⟩

theorem routeSyncDeals_count (o : Nat) (cs : List VetorClient) (recs : List VetorDeal) :
    ∀ (db : DB) (n : Nat),
      (routeSyncDeals o cs db recs n).2 =
        n + (recs.filter (fun r => !r.malformed)).length := by
  induction recs with
  | nil => intro db n; simp [routeSyncDeals]
  | cons r recs ih =>
    intro db n
    rw [routeSyncDeals]
    cases hm : r.malformed
    · have hok := routeSyncOneDeal_isOk db o cs r hm
      cases hstep : routeSyncOneDeal db o cs r with
      | ok db1 =>
        show (routeSyncDeals o cs db1 recs (n + 1)).2 =
          n + (List.filter (fun r => !r.malformed) (r :: recs)).length
        rw [ih]
        have hfe : List.filter (fun r => !r.malformed) (r :: recs) =
            r :: List.filter (fun r => !r.malformed) recs := by
          simp [List.filter_cons, hm]
        rw [hfe, List.length_cons]
        omega
      | error e =>
        rw [hstep] at hok
        simp [Except.isOk, Except.toBool] at hok
    · have herr : routeSyncOneDeal db o cs r =
          .error ("Error syncing deal " ++ jsOrS r.id "") := by
        unfold routeSyncOneDeal
        simp [hm]
      rw [herr, ih]
      have hfe : List.filter (fun r => !r.malformed) (r :: recs) =
          List.filter (fun r => !r.malformed) recs := by
        simp [List.filter_cons, hm]
      rw [hfe]

theorem cronSyncOneDeal_isOk (db : DB) (o : Nat) (r : VetorDeal)
    (hm : r.malformed = false) :
    (cronSyncOneDeal db o r).isOk = true := by
  unfold cronSyncOneDeal
  rw [hm]
  simp only [Bool.false_eq_true, if_false]
  cases hfind : cronFindDeal db r
  · rfl
  · rfl

theorem cronSyncDeals_count (o : Nat) (recs : List VetorDeal) :
    ∀ (db : DB) (n : Nat),
      (cronSyncDeals o db recs n).2 =
        n + (recs.filter (fun r => !r.malformed)).length := by
  induction recs with
  | nil => intro db n; simp [cronSyncDeals]
  | cons r recs ih =>
    intro db n
    rw [cronSyncDeals]
    cases hm : r.malformed
    · have hok := cronSyncOneDeal_isOk db o r hm
      cases hstep : cronSyncOneDeal db o r with
      | ok db1 =>
        show (cronSyncDeals o db1 recs (n + 1)).2 =
          n + (List.filter (fun r => !r.malformed) (r :: recs)).length
        rw [ih]
        have hfe : List.filter (fun r => !r.malformed) (r :: recs) =
            r :: List.filter (fun r => !r.malformed) recs := by
          simp [List.filter_cons, hm]
        rw [hfe, List.length_cons]
        omega
      | error e =>
        rw [hstep] at hok
        simp [Except.isOk, Except.toBool] at hok
    · have herr : cronSyncOneDeal db o r =
          .error ("Error syncing deal " ++ jsOrS r.id "") := by
        unfold cronSyncOneDeal
        simp [hm]
      rw [herr, ih]
      have hfe : List.filter (fun r => !r.malformed) (r :: recs) =
          List.filter (fun r => !r.malformed) recs := by
        simp [List.filter_cons, hm]
      rw [hfe]

/-- Claim C7 (amended): partial-failure isolation holds for the counts -
both deal loops process every record except the malformed ones, so a batch
of N records with exactly one malformed record yields a processed count of
N-1 and the pass still closes with status success - but no error string is
recorded on the pass result: the success-path sync log update never
touches error_message, which the opened row carries as NULL (the
per-record error goes only to the console in the scheduled job and is
swallowed by the route). -/
theorem claim7_theorem (o : Nat) (cs : List VetorClient) (db : DB)
    (recs : List VetorDeal) (n m : Nat) (r0 : SyncLog) :
    (routeSyncDeals o cs db recs n).2 =
      n + (recs.filter (fun r => !r.malformed)).length ∧
    (cronSyncDeals o db recs n).2 =
      n + (recs.filter (fun r => !r.malformed)).length ∧
    (setSuccess m r0).error_message = r0.error_message ∧
    (openRow m o "vetor_imobi").error_message = Option.none :=
  ⟨routeSyncDeals_count o cs recs db n, cronSyncDeals_count o recs db n, rfl, rfl⟩
/-- Claim C3 (amended): the matching local deal is selected solely by
property title - within the requesting organization in the manual route,
and with no organization scoping at all in the scheduled job; the external
id is stored on the row but never consulted by the lookup, witnessed by
the match result being invariant under arbitrary rewriting of every stored
external id. -/
theorem claim3_theorem (db : DB) (orgId : Nat) (rec : VetorDeal)
    (f : Option String → Option String) :
    routeFindDeal db orgId rec = amendedFindDealRoute db orgId rec ∧
    cronFindDeal db rec = amendedFindDealCron db rec ∧
    (routeFindDeal
        { db with deals := db.deals.map (fun d => { d with external_id := f d.external_id }) }
        orgId rec).map (fun d => d.id) =
      (routeFindDeal db orgId rec).map (fun d => d.id) ∧
    (cronFindDeal
        { db with deals := db.deals.map (fun d => { d with external_id := f d.external_id }) }
        rec).map (fun d => d.id) =
      (cronFindDeal db rec).map (fun d => d.id) := by
  refine ⟨?_, rfl, ?_, ?_⟩
  · unfold routeFindDeal amendedFindDealRoute
    have hcomm : (fun d : Deal =>
          d.property_title == some (jsOrS rec.title "") && d.organization_id == orgId)
        = (fun d : Deal =>
          d.organization_id == orgId && d.property_title == some (jsOrS rec.title "")) :=
      funext fun d => Bool.and_comm _ _
    rw [hcomm]
  · show ((db.deals.map (fun d => { d with external_id := f d.external_id })).find?
        (fun d => d.property_title == some (jsOrS rec.title "") && d.organization_id == orgId)).map
          (fun d => d.id) =
      (routeFindDeal db orgId rec).map (fun d => d.id)
    rw [List.find?_map, Option.map_map]
    rfl
  · show ((db.deals.map (fun d => { d with external_id := f d.external_id })).find?
        (fun d => d.property_title == some (jsOrS rec.title ""))).map (fun d => d.id) =
      (cronFindDeal db rec).map (fun d => d.id)
    rw [List.find?_map, Option.map_map]
    rfl
